import Mathlib

/-!
Verification of the Figment design-to-code application against its
natural-language specification.

The development shallowly embeds the relevant parts of the TypeScript
source:
  * `validateFile`, `handleFileSelect`, `clearFile`
      (src/features/upload/hooks/useFileUpload.ts)
  * `buildPrompt` and `BASE_PROMPT`
      (src/features/generation/utils/prompts.ts, src/lib/gemini.ts)
  * the `POST /api/generate` route handler
      (src/app/api/generate/route.ts, and the alternative revision that
      relays the raw error message)
  * the `useGenerateCode` generation state machine
      (src/features/generation/components/GenerationStatus/index.tsx)

Browser `File` objects are embedded as the pair of the two attributes the
code reads (MIME type and byte size); object URLs are embedded as natural
number identifiers handed out by a fresh-id counter, with the set of live
(created and not yet revoked) URLs carried explicitly.  Thrown JavaScript
values are embedded as either an `Error` carrying a message or some other
value; asynchronous calls are embedded by passing their settled outcome as
an explicit argument.
-/

/-- A browser file, restricted to the two attributes the code inspects:
`type` is the MIME type string, `size` the byte size. -/
structure FileM where
  type : String
  size : Nat
deriving DecidableEq, Repr

/-- Embeds `ALLOWED_FILE_TYPES` from useFileUpload.ts. -/
def ALLOWED_FILE_TYPES : List String := ["image/png", "image/jpeg", "image/webp"]

/-- Embeds `MAX_SIZE = 10 * 1024 * 1024` from useFileUpload.ts. -/
def MAX_SIZE : Nat := 10 * 1024 * 1024

/-- Embeds the `ValidationResult` discriminated union from useFileUpload.ts. -/
inductive ValidationResult where
  | valid : ValidationResult
  | invalid (error : String) : ValidationResult
deriving DecidableEq, Repr

/-- The `valid` field of a `ValidationResult`. -/
def ValidationResult.isValid : ValidationResult → Bool
  | .valid => true
  | .invalid _ => false

/-- Embeds `validateFile` from useFileUpload.ts.  The source is a
`switch(true)` whose cases are tried in order, which is the nested
conditional below. -/
def validateFile (file : FileM) : ValidationResult :=
  if ¬ (ALLOWED_FILE_TYPES.contains file.type) then
    .invalid "File must be an image (png, jpg, webp)"
  else if file.size > MAX_SIZE then
    .invalid "File must be under 10MB"
  else
    .valid

/-- The state held by the `useFileUpload` hook (`file`, `preview`, `error`),
together with the embedding of the browser object-URL facility: `nextUrl`
is the fresh identifier `URL.createObjectURL` returns next, and `live` is
the list of created-and-not-revoked object URLs. -/
structure UploadState where
  file : Option FileM
  preview : Option Nat
  error : Option String
  nextUrl : Nat
  live : List Nat
deriving DecidableEq, Repr

/-- Embeds `handleFileSelect` from useFileUpload.ts: validate; when valid,
revoke the prior preview URL (if any), install the file with a freshly
created preview URL and clear the error; when invalid, only set the error. -/
def handleFileSelect (s : UploadState) (f : FileM) : UploadState :=
  match validateFile f with
  | .valid =>
      let live1 := match s.preview with
        | some p => s.live.erase p
        | none => s.live
      { file := some f
        preview := some s.nextUrl
        error := none
        nextUrl := s.nextUrl + 1
        live := s.nextUrl :: live1 }
  | .invalid msg => { s with error := some msg }

/-- Embeds `clearFile` from useFileUpload.ts: null out `file` and `preview`;
nothing else is touched (in particular no `URL.revokeObjectURL` call). -/
def clearFile (s : UploadState) : UploadState :=
  { s with file := none, preview := none }

/-- Embeds `BASE_PROMPT` from src/lib/gemini.ts. -/
def BASE_PROMPT : String :=
  "You are an expert React developer. Analyze this design screenshot and generate a React component.\n\nRequirements:\n- Use React 19 with functional components\n- Use TypeScript with proper types\n- Use Tailwind CSS for styling\n- Make it responsive\n- Follow accessibility best practices\n- Use semantic HTML\n\nOutput ONLY the code, no explanations or markdown code blocks."

/-- Embeds `buildPrompt` from prompts.ts.  The optional `message` parameter
is an `Option String`; the source guard `if(!message)` is true both for an
absent message and for a present empty string, since the empty string is
falsy in JavaScript. -/
def buildPrompt (message : Option String) : String :=
  match message with
  | none => BASE_PROMPT
  | some m => if m = "" then BASE_PROMPT else BASE_PROMPT ++ " " ++ m

/-- A thrown JavaScript value: either an `Error` instance carrying a
message, or any other value. -/
inductive JsErr where
  | error (message : String) : JsErr
  | other : JsErr
deriving DecidableEq, Repr

/-- Embeds the `ApiResult` envelope type from src/shared/types/api.ts. -/
inductive ApiResult where
  | success (generatedCode : String) : ApiResult
  | failure (code : Nat) (message : String) : ApiResult
deriving DecidableEq, Repr

/-- An HTTP response produced by the route: the status together with the
JSON envelope body. -/
structure HttpResponse where
  status : Nat
  body : ApiResult
deriving DecidableEq, Repr

/-- The parsed JSON body of a request to POST /api/generate.  A field is
`none` when absent from the JSON. -/
structure ReqBody where
  image : Option String
  prompt : Option String
deriving DecidableEq, Repr

/-- JavaScript truthiness of a possibly-absent string: absent and the empty
string are falsy. -/
def truthyStr : Option String → Bool
  | none => false
  | some s => s ≠ ""

/-- Embeds `POST` from src/app/api/generate/route.ts.  The handler is given
the parsed request body and the settled outcome of the awaited
`generateCodeFromImage` call; it returns the response together with a flag
recording whether that provider call was reached.  The catch branch of this
revision ignores the thrown value and answers with a fixed message. -/
def POST (body : ReqBody) (provider : Except JsErr String) : HttpResponse × Bool :=
  if truthyStr body.image = false then
    ({ status := 400, body := .failure 400 "Image is required" }, false)
  else
    match provider with
    | .ok text => ({ status := 200, body := .success text }, true)
    | .error _ => ({ status := 500, body := .failure 500 "Failed to generate code" }, true)

/-- Embeds the alternative revision of the route handler (the same file in
an earlier form): its catch branch relays the thrown error message to the
client, using "Unknown error" for a non-Error thrown value. -/
def POSTAlt (body : ReqBody) (provider : Except JsErr String) : HttpResponse × Bool :=
  if truthyStr body.image = false then
    ({ status := 400, body := .failure 400 "Image is required" }, false)
  else
    match provider with
    | .ok text => ({ status := 200, body := .success text }, true)
    | .error e =>
        ({ status := 500
           body := .failure 500 (match e with | .error m => m | .other => "Unknown error") }, true)

/-- Embeds the `GenerationStatus` union type from GenerationStatus/index.tsx. -/
inductive GenStatus where
  | idle : GenStatus
  | loading : GenStatus
  | success : GenStatus
  | error : GenStatus
deriving DecidableEq, Repr

/-- The state held by the `useGenerateCode` hook: `status`, `error`, `code`. -/
structure GenState where
  status : GenStatus
  error : Option String
  code : Option String
deriving DecidableEq, Repr

/-- The initial hook state: `useState` starts at idle with null error and
null code. -/
def genInit : GenState := { status := .idle, error := none, code := none }

/-- The settled outcome of the body of `generateFile` after the resets:
either some awaited step threw (`convertToFileBase64` or `generate`
rejecting, embedded as the thrown value), or `generate` resolved with a
parsed envelope. -/
inductive GenOutcome where
  | thrown (e : JsErr) : GenOutcome
  | envelope (r : ApiResult) : GenOutcome
deriving DecidableEq, Repr

/-- The message the catch branch stores:
`error instanceof Error ? error.message : 'An unknown error occurred'`. -/
def catchMessage : JsErr → String
  | .error m => m
  | .other => "An unknown error occurred"

/-- Embeds `generateFile` from GenerationStatus/index.tsx as the pair of the
state after the three resets at the top of the try block
(`setStatus('loading'); setError(null); setCode(null)`) and the final state
once the outcome settles.  A failure envelope is rethrown as an `Error`
carrying `result.error.message` and lands in the same catch branch as a
thrown value. -/
def generateFile (_s : GenState) (o : GenOutcome) : GenState × GenState :=
  let s1 : GenState := { status := .loading, error := none, code := none }
  let s2 : GenState :=
    match o with
    | .thrown e => { s1 with status := .error, error := some (catchMessage e) }
    | .envelope (.success g) => { s1 with status := .success, code := some g }
    | .envelope (.failure _ m) => { s1 with status := .error, error := some m }
  (s1, s2)

/-- The states the `useGenerateCode` hook can reach: the initial state, and
the intermediate and final states of any invocation of `generateFile` from
a reachable state. -/
inductive GenReachable : GenState → Prop where
  | init : GenReachable genInit
  | mid (s : GenState) (o : GenOutcome) :
      GenReachable s → GenReachable (generateFile s o).1
  | fin (s : GenState) (o : GenOutcome) :
      GenReachable s → GenReachable (generateFile s o).2

/-! ### Theorems -/

/-- C5: every file whose MIME type is in the allow-list and whose size is at
or under 10MB (10*1024*1024 bytes, boundary inclusive) validates as
`{valid: true}`; every file whose size is over 10MB gets `valid: false`
regardless of its MIME type. -/
theorem c5_validate_size_bounds (f : FileM)
    (hty : f.type ∈ ALLOWED_FILE_TYPES) (hsz : f.size ≤ MAX_SIZE) :
    validateFile f = ValidationResult.valid ∧
    ∀ g : FileM, g.size > MAX_SIZE → (validateFile g).isValid = false := by
  constructor
  · simp [validateFile, hty, Nat.not_lt.mpr hsz]
  · intro g hg
    by_cases h : g.type ∈ ALLOWED_FILE_TYPES
    · simp [validateFile, h, hg, ValidationResult.isValid]
    · simp [validateFile, h, ValidationResult.isValid]

/-- C5 witness: a 10MB png validates, and an 11MB png is rejected. -/
theorem c5_validate_size_bounds_witness :
    validateFile ⟨"image/png", 10 * 1024 * 1024⟩ = ValidationResult.valid ∧
    (validateFile ⟨"image/png", 11 * 1024 * 1024⟩).isValid = false := by
  have h := c5_validate_size_bounds ⟨"image/png", 10 * 1024 * 1024⟩
    (by decide) (by decide)
  exact ⟨h.1, h.2 ⟨"image/png", 11 * 1024 * 1024⟩ (by decide)⟩

/-- C6: every file whose MIME type is not among image/png, image/jpeg,
image/webp is rejected with the type-related message. -/
theorem c6_validate_bad_type (f : FileM) (hty : f.type ∉ ALLOWED_FILE_TYPES) :
    validateFile f = ValidationResult.invalid "File must be an image (png, jpg, webp)" := by
  simp [validateFile, hty]

/-- C6 witness: a plain-text file is rejected with the type message. -/
theorem c6_validate_bad_type_witness :
    validateFile ⟨"text/plain", 5⟩ =
      ValidationResult.invalid "File must be an image (png, jpg, webp)" :=
  c6_validate_bad_type ⟨"text/plain", 5⟩ (by decide)

/-- C9: the MIME-type case is tried before the size case, so a file that is
both of a disallowed type and over 10MB gets the type-related message, not
the size-related one. -/
theorem c9_type_checked_before_size (f : FileM)
    (hty : f.type ∉ ALLOWED_FILE_TYPES) (hsz : f.size > MAX_SIZE) :
    validateFile f = ValidationResult.invalid "File must be an image (png, jpg, webp)" ∧
    validateFile f ≠ ValidationResult.invalid "File must be under 10MB" := by
  refine ⟨by simp [validateFile, hty], ?_⟩
  simp [validateFile, hty]

/-- C9 witness: an 11MB gif gets the type message, not the size message. -/
theorem c9_type_checked_before_size_witness :
    validateFile ⟨"image/gif", 11 * 1024 * 1024⟩ =
      ValidationResult.invalid "File must be an image (png, jpg, webp)" ∧
    validateFile ⟨"image/gif", 11 * 1024 * 1024⟩ ≠
      ValidationResult.invalid "File must be under 10MB" :=
  c9_type_checked_before_size ⟨"image/gif", 11 * 1024 * 1024⟩ (by decide) (by decide)

/-- C3: `handleFileSelect` on a file passing validation revokes the prior
preview URL (if any), installs the file with a newly created preview URL
and clears the error; on a file failing validation it only sets the error
message, leaving file and preview (and the live URLs) unchanged. -/
theorem c3_handleFileSelect_frame (s : UploadState) (f : FileM) :
    (validateFile f = ValidationResult.valid →
      handleFileSelect s f =
        { file := some f
          preview := some s.nextUrl
          error := none
          nextUrl := s.nextUrl + 1
          live := s.nextUrl ::
            (match s.preview with | some p => s.live.erase p | none => s.live) }) ∧
    (∀ msg, validateFile f = ValidationResult.invalid msg →
      handleFileSelect s f = { s with error := some msg }) := by
  constructor
  · intro h
    simp [handleFileSelect, h]
  · intro msg h
    simp [handleFileSelect, h]

/-- C3 witness: replacing a previously selected file with a valid jpeg
revokes the old URL 0 and installs fresh URL 1; selecting a text file
instead only sets the error. -/
theorem c3_handleFileSelect_frame_witness :
    handleFileSelect ⟨some ⟨"image/png", 5⟩, some 0, some "old", 1, [0]⟩ ⟨"image/jpeg", 7⟩ =
      ⟨some ⟨"image/jpeg", 7⟩, some 1, none, 2, [1]⟩ ∧
    handleFileSelect ⟨some ⟨"image/png", 5⟩, some 0, some "old", 1, [0]⟩ ⟨"text/plain", 5⟩ =
      ⟨some ⟨"image/png", 5⟩, some 0, some "File must be an image (png, jpg, webp)", 1, [0]⟩ := by
  constructor
  · exact (c3_handleFileSelect_frame _ _).1 (by decide)
  · exact (c3_handleFileSelect_frame _ _).2 _ (by decide)

/-- C7: `clearFile` nulls the current file and preview but revokes nothing:
the set of live object URLs is exactly what it was before the call (and the
error field is also untouched). -/
theorem c7_clearFile_does_not_revoke (s : UploadState) :
    (clearFile s).file = none ∧ (clearFile s).preview = none ∧
    (clearFile s).live = s.live ∧ (clearFile s).error = s.error := by
  simp [clearFile]

/-- C8 counterexample: the claim fails for the present-but-empty message.
`buildPrompt` applied to the empty string returns `BASE_PROMPT` itself, not
`BASE_PROMPT` followed by a space (the JavaScript guard `if(!message)`
treats the empty string as absent). -/
theorem c8_buildPrompt_empty_message :
    buildPrompt (some "") = BASE_PROMPT ∧
    buildPrompt (some "") ≠ BASE_PROMPT ++ " " ++ "" := by
  refine ⟨rfl, fun h => ?_⟩
  have hlen := congrArg String.length h
  simp [String.length_append, buildPrompt] at hlen
  exact absurd hlen (by decide)

/-- C8 amended: for an absent or empty user message `buildPrompt` returns
exactly `BASE_PROMPT`, and for a present non-empty message m it returns
`BASE_PROMPT` followed by a single space followed by m. -/
theorem c8_buildPrompt_amended (m : String) (hm : m ≠ "") :
    buildPrompt none = BASE_PROMPT ∧
    buildPrompt (some "") = BASE_PROMPT ∧
    buildPrompt (some m) = BASE_PROMPT ++ " " ++ m := by
  refine ⟨rfl, rfl, ?_⟩
  simp [buildPrompt, hm]

/-- C8 witness: a concrete non-empty message is appended after one space. -/
theorem c8_buildPrompt_amended_witness :
    buildPrompt (some "make it blue") = BASE_PROMPT ++ " " ++ "make it blue" :=
  (c8_buildPrompt_amended "make it blue" (by decide)).2.2

/-- C4: a request whose parsed body has no image field gets status 400 with
the `Image is required` failure envelope, and the provider wrapper is not
invoked (the response is produced for every possible provider outcome, with
the invocation flag false). -/
theorem c4_missing_image_400 (prompt : Option String) (provider : Except JsErr String) :
    POST { image := none, prompt := prompt } provider =
      ({ status := 400, body := ApiResult.failure 400 "Image is required" }, false) := by
  simp [POST, truthyStr]

/-- C1: when the provider call throws, the route answers 500 with the
success-false envelope carrying the fixed generic message; the response does
not depend on the thrown error (any two thrown errors give identical
responses), and the fixed message never coincides with the message of a
thrown Error other than the degenerate one spelling the fixed string
itself. -/
theorem c1_route_error_fixed_generic (body : ReqBody)
    (himg : truthyStr body.image = true) (e1 e2 : JsErr) :
    POST body (Except.error e1) =
      ({ status := 500, body := ApiResult.failure 500 "Failed to generate code" }, true) ∧
    POST body (Except.error e1) = POST body (Except.error e2) ∧
    (∀ m, e1 = JsErr.error m → m ≠ "Failed to generate code" →
      (POST body (Except.error e1)).1.body ≠ ApiResult.failure 500 m) := by
  refine ⟨by simp [POST, himg], by simp [POST, himg], ?_⟩
  intro m _ hm
  simp [POST, himg]
  exact fun h => hm h.symm

/-- C1 witness: a thrown quota error and a thrown non-Error value give the
very same fixed 500 response, whose message is not the quota message. -/
theorem c1_route_error_fixed_generic_witness :
    POST ⟨some "img", none⟩ (Except.error (JsErr.error "quota exceeded")) =
      ({ status := 500, body := ApiResult.failure 500 "Failed to generate code" }, true) ∧
    POST ⟨some "img", none⟩ (Except.error (JsErr.error "quota exceeded")) =
      POST ⟨some "img", none⟩ (Except.error JsErr.other) ∧
    (POST ⟨some "img", none⟩ (Except.error (JsErr.error "quota exceeded"))).1.body ≠
      ApiResult.failure 500 "quota exceeded" := by
  have h := c1_route_error_fixed_generic ⟨some "img", none⟩ (by decide)
    (JsErr.error "quota exceeded") JsErr.other
  exact ⟨h.1, h.2.1, h.2.2 "quota exceeded" rfl (by decide)⟩

/-- C2: every invocation of `generateFile` first moves the status to
loading, from any prior state; a success envelope stores the generated text
in code and ends in success; a thrown error or a failure envelope stores a
message in error and ends in error; no other terminal status is
reachable. -/
theorem c2_generateFile_machine (s : GenState) (o : GenOutcome) :
    (generateFile s o).1.status = GenStatus.loading ∧
    (∀ g, o = GenOutcome.envelope (ApiResult.success g) →
      (generateFile s o).2 =
        { status := GenStatus.success, error := none, code := some g }) ∧
    (∀ e, o = GenOutcome.thrown e →
      (generateFile s o).2.status = GenStatus.error ∧
      (generateFile s o).2.error = some (catchMessage e)) ∧
    (∀ c m, o = GenOutcome.envelope (ApiResult.failure c m) →
      (generateFile s o).2.status = GenStatus.error ∧
      (generateFile s o).2.error = some m) ∧
    ((generateFile s o).2.status = GenStatus.success ∨
      (generateFile s o).2.status = GenStatus.error) := by
  refine ⟨rfl, ?_, ?_, ?_, ?_⟩
  · rintro g rfl
    rfl
  · rintro e rfl
    exact ⟨rfl, rfl⟩
  · rintro c m rfl
    exact ⟨rfl, rfl⟩
  · cases o with
    | thrown e => exact Or.inr rfl
    | envelope r =>
        cases r with
        | success g => exact Or.inl rfl
        | failure c m => exact Or.inr rfl

/-- C2 witness: from the idle initial state, a success envelope passes
through loading to success with the code stored, and a thrown Error passes
through loading to error with its message stored. -/
theorem c2_generateFile_machine_witness :
    (generateFile genInit (GenOutcome.envelope (ApiResult.success "const X = 1"))).1.status =
      GenStatus.loading ∧
    (generateFile genInit (GenOutcome.envelope (ApiResult.success "const X = 1"))).2 =
      { status := GenStatus.success, error := none, code := some "const X = 1" } ∧
    (generateFile genInit (GenOutcome.thrown (JsErr.error "boom"))).2.status =
      GenStatus.error ∧
    (generateFile genInit (GenOutcome.thrown (JsErr.error "boom"))).2.error = some "boom" := by
  have h1 := c2_generateFile_machine genInit
    (GenOutcome.envelope (ApiResult.success "const X = 1"))
  have h2 := c2_generateFile_machine genInit (GenOutcome.thrown (JsErr.error "boom"))
  refine ⟨h1.1, h1.2.1 "const X = 1" rfl, (h2.2.2.1 (JsErr.error "boom") rfl).1, ?_⟩
  simpa [catchMessage] using (h2.2.2.1 (JsErr.error "boom") rfl).2

/-- C10: entering loading resets code and error to null, and in every
reachable hook state, status success implies code is non-null and error
null, while status error implies error is non-null. -/
theorem c10_status_data_coupling :
    (∀ (s : GenState) (o : GenOutcome),
      (generateFile s o).1.code = none ∧ (generateFile s o).1.error = none) ∧
    (∀ s : GenState, GenReachable s →
      (s.status = GenStatus.success → s.code ≠ none ∧ s.error = none) ∧
      (s.status = GenStatus.error → s.error ≠ none)) := by
  constructor
  · intro s o
    exact ⟨rfl, rfl⟩
  · intro s h
    induction h with
    | init =>
        exact ⟨fun h => absurd h (by decide), fun h => absurd h (by decide)⟩
    | mid s o _ _ =>
        constructor
        · intro h
          simp [generateFile] at h
        · intro h
          simp [generateFile] at h
    | fin s o _ _ =>
        cases o with
        | thrown e =>
            constructor
            · intro h
              simp [generateFile] at h
            · intro _
              simp [generateFile]
        | envelope r =>
            cases r with
            | success g =>
                constructor
                · intro _
                  simp [generateFile]
                · intro h
                  simp [generateFile] at h
            | failure c m =>
                constructor
                · intro h
                  simp [generateFile] at h
                · intro _
                  simp [generateFile]

/-- C10 witness: the state reached from idle through a success envelope is
reachable, has status success, non-null code and null error. -/
theorem c10_status_data_coupling_witness :
    (generateFile genInit (GenOutcome.envelope (ApiResult.success "let y = 2"))).2.code ≠ none ∧
    (generateFile genInit (GenOutcome.envelope (ApiResult.success "let y = 2"))).2.error = none := by
  have h := c10_status_data_coupling.2
    (generateFile genInit (GenOutcome.envelope (ApiResult.success "let y = 2"))).2
    (GenReachable.fin genInit (GenOutcome.envelope (ApiResult.success "let y = 2"))
      GenReachable.init)
  exact h.1 rfl
